import Mathlib

/-!
# Verification of the appz-budget terminal client's interactive core

A shallow embedding, in Lean 4, of the state machine at the heart of the
`budget_tui` crate: dashboard tabs, settings sub-tabs, modal dispatch, form
drafts with validation and payload conversion, resource caches and their
reload operations, and the message discipline.  Every definition is
translated from the Rust sources (`src/tui/src/...`); network calls are the
only effects, and they are reified as explicit `Except`-valued parameters
threaded into the operations that await them, so that each operation becomes
a pure function of its pre-state and the responses it would receive.

Numeric fields typed `f64` in Rust are modelled as `Rat`; the only numeric
operations the verified code performs are parsing, addition and comparison
with zero, for which `Rat` is an exact stand-in.
-/

namespace Budget

/-! ## Key codes

The subset of `crossterm::event::KeyCode` the application distinguishes.
All remaining crossterm variants behave identically to `other` in every
handler modelled here (they only ever reach catch-all `_` arms). -/

inductive KeyCode where
  | char (c : Char)
  | esc
  | enter
  | tab
  | backTab
  | backspace
  | up
  | down
  | left
  | right
  | other
  deriving DecidableEq, Repr

/-! ## Dashboard tabs (`src/tui/src/state/app_state.rs`, `DashboardTab`) -/

inductive DashboardTab where
  | Summary
  | Expenses
  | Income
  | Charts
  | Settings
  deriving DecidableEq, Repr, Fintype

/-- `DashboardTab::all` -/
def DashboardTab.all : List DashboardTab :=
  [.Summary, .Expenses, .Income, .Charts, .Settings]

/-- `DashboardTab::index` -/
def DashboardTab.index : DashboardTab → Nat
  | .Summary => 0
  | .Expenses => 1
  | .Income => 2
  | .Charts => 3
  | .Settings => 4

/-- `DashboardTab::from_index` (out of range defaults to `Summary`) -/
def DashboardTab.from_index : Nat → DashboardTab
  | 0 => .Summary
  | 1 => .Expenses
  | 2 => .Income
  | 3 => .Charts
  | 4 => .Settings
  | _ => .Summary

/-- `DashboardTab::next`: step forward through `all` with wraparound. -/
def DashboardTab.next (t : DashboardTab) : DashboardTab :=
  DashboardTab.all.getD ((t.index + 1) % DashboardTab.all.length) .Summary

/-- `DashboardTab::previous`: step backward through `all` with wraparound. -/
def DashboardTab.previous (t : DashboardTab) : DashboardTab :=
  DashboardTab.all.getD
    (if t.index = 0 then DashboardTab.all.length - 1 else t.index - 1) .Summary

/-! ## Settings sub-tabs (`src/tui/src/state/app_state.rs`, `SettingsTab`) -/

inductive SettingsTab where
  | Categories
  | Periods
  | IncomeTypes
  | Password
  deriving DecidableEq, Repr, Fintype

/-- `SettingsTab::all` -/
def SettingsTab.all : List SettingsTab :=
  [.Categories, .Periods, .IncomeTypes, .Password]

/-- `SettingsTab::index` -/
def SettingsTab.index : SettingsTab → Nat
  | .Categories => 0
  | .Periods => 1
  | .IncomeTypes => 2
  | .Password => 3

/-- `SettingsTab::from_index` (out of range defaults to `Categories`) -/
def SettingsTab.from_index : Nat → SettingsTab
  | 0 => .Categories
  | 1 => .Periods
  | 2 => .IncomeTypes
  | 3 => .Password
  | _ => .Categories

/-- `SettingsTab::next`: step forward through `all` with wraparound. -/
def SettingsTab.next (t : SettingsTab) : SettingsTab :=
  SettingsTab.all.getD ((t.index + 1) % SettingsTab.all.length) .Categories

/-- `SettingsTab::previous`: step backward through `all` with wraparound. -/
def SettingsTab.previous (t : SettingsTab) : SettingsTab :=
  SettingsTab.all.getD
    (if t.index = 0 then SettingsTab.all.length - 1 else t.index - 1) .Categories

/-! ## Numeric parsing

`str::parse::<f64>` as used by the forms.  Every string the application
parses is a plain decimal literal (the numeric form fields only ever accept
ASCII digits and at most one dot, see `handle_expense_form_key` /
`handle_income_form_key` in `src/tui/src/app.rs`), so the model covers an
optional sign followed by digits with at most one dot and at least one digit
on one side of it — exactly the inputs on which the claims are decided.
Exponent / `inf` / `NaN` forms, which no draft can contain, are omitted. -/

/-- Decimal value of a digit string. -/
def digits_value (cs : List Char) : Nat :=
  cs.foldl (fun n c => n * 10 + (c.toNat - '0'.toNat)) 0

/-- Model of `String::parse::<f64>` (`Ok` ↦ `some`, `Err` ↦ `none`). -/
def parse_f64 (s : String) : Option Rat :=
  let cs := s.toList
  let signed : Rat × List Char :=
    match cs with
    | '+' :: rest => (1, rest)
    | '-' :: rest => (-1, rest)
    | _ => (1, cs)
  let sign := signed.1
  let body := signed.2
  let intPart := body.takeWhile Char.isDigit
  let rest := body.drop intPart.length
  match rest with
  | [] =>
    if intPart.isEmpty then none
    else some (sign * (digits_value intPart : Rat))
  | '.' :: frac =>
    if frac.all Char.isDigit && !(intPart.isEmpty && frac.isEmpty) then
      some (sign * ((digits_value intPart : Rat) +
        (digits_value frac : Rat) / ((10 : Rat) ^ frac.length)))
    else none
  | _ => none

/-! ## Domain models (`src/tui/src/models/`)

Plain records.  `f64` ↦ `Rat`, `i32` ↦ `Int`, `Vec<T>` ↦ `List T`. -/

/-- `models/expense.rs`: `Purchase`. -/
structure Purchase where
  name : String
  amount : Rat
  date : Option String
  deriving DecidableEq, Repr

/-- `models/expense.rs`: `Expense`. -/
structure Expense where
  id : Int
  expense_name : String
  period : String
  category : String
  budget : Rat
  cost : Rat
  notes : Option String
  month_id : Int
  purchases : Option (List Purchase)
  order : Int
  expense_date : Option String
  deriving DecidableEq, Repr

/-- `models/expense.rs`: `ExpenseCreate`. -/
structure ExpenseCreate where
  expense_name : String
  period : String
  category : String
  budget : Rat
  cost : Rat
  notes : Option String
  month_id : Int
  purchases : Option (List Purchase)
  expense_date : Option String
  deriving DecidableEq, Repr

/-- `models/expense.rs`: `ExpenseUpdate`.  Every field carries
`#[serde(skip_serializing_if = "Option::is_none")]`. -/
structure ExpenseUpdate where
  expense_name : Option String := none
  period : Option String := none
  category : Option String := none
  budget : Option Rat := none
  cost : Option Rat := none
  notes : Option String := none
  month_id : Option Int := none
  purchases : Option (List Purchase) := none
  expense_date : Option String := none
  deriving DecidableEq, Repr

/-- The keys of the JSON object `serde_json` produces for an
`ExpenseUpdate`: fields in declaration order, each emitted iff its `Option`
is `some` (the `skip_serializing_if = "Option::is_none"` attributes in
`models/expense.rs`). -/
def ExpenseUpdate.serialized_keys (u : ExpenseUpdate) : List String :=
  (if u.expense_name.isSome then ["expense_name"] else []) ++
  (if u.period.isSome then ["period"] else []) ++
  (if u.category.isSome then ["category"] else []) ++
  (if u.budget.isSome then ["budget"] else []) ++
  (if u.cost.isSome then ["cost"] else []) ++
  (if u.notes.isSome then ["notes"] else []) ++
  (if u.month_id.isSome then ["month_id"] else []) ++
  (if u.purchases.isSome then ["purchases"] else []) ++
  (if u.expense_date.isSome then ["expense_date"] else [])

/-- `models/income.rs`: `Income`. -/
structure Income where
  id : Int
  income_type_id : Int
  period : String
  budget : Rat
  amount : Rat
  month_id : Int
  created_at : String
  updated_at : String
  created_by : Option String
  updated_by : Option String
  deriving DecidableEq, Repr

/-- `models/income.rs`: `IncomeCreate`. -/
structure IncomeCreate where
  income_type_id : Int
  period : String
  budget : Rat
  amount : Rat
  month_id : Int
  deriving DecidableEq, Repr

/-- `models/income.rs`: `IncomeUpdate` (all fields skip-if-none). -/
structure IncomeUpdate where
  income_type_id : Option Int := none
  period : Option String := none
  budget : Option Rat := none
  amount : Option Rat := none
  month_id : Option Int := none
  deriving DecidableEq, Repr

/-- `models/category.rs`: `Category`. -/
structure Category where
  id : Int
  name : String
  color : String
  deriving DecidableEq, Repr

/-- `models/period.rs` is declared by `models/mod.rs` but absent from the
tree; the record's shape — identical to `Category` — is fixed by its uses in
`state/forms.rs` (`period.id`, `period.name`, `period.color`) and
`app.rs`. -/
structure Period where
  id : Int
  name : String
  color : String
  deriving DecidableEq, Repr

/-- `models/income_type.rs`: `IncomeType`. -/
structure IncomeType where
  id : Int
  name : String
  color : String
  deriving DecidableEq, Repr

/-- `models/month.rs`: `Month`.  The checked-in `month.rs` is the
superseded variant of the module (see the duplicated-evolutions note in the
repository); the closed-month fields `is_closed` / `closed_at` / `closed_by`
are required by `app.rs` (`m.is_closed`, `open_close_month_confirmation`)
and constructed by `tests/state_test.rs`, whose literal gives the full field
list used here. -/
structure Month where
  id : Int
  year : Int
  month : Int
  name : String
  start_date : String
  end_date : String
  is_closed : Bool
  closed_at : Option String
  closed_by : Option String
  deriving DecidableEq, Repr

/-- `models/summary.rs`: `SummaryTotals`. -/
structure SummaryTotals where
  total_budgeted_expenses : Rat
  total_current_expenses : Rat
  total_budgeted_income : Rat
  total_current_income : Rat
  total_budgeted : Rat
  total_current : Rat
  deriving DecidableEq, Repr

/-- `models/summary.rs`: `CategorySummary`. -/
structure CategorySummary where
  category : String
  budget : Rat
  total : Rat
  over_budget : Bool
  deriving DecidableEq, Repr

/-- `models/summary.rs`: `IncomeTypeSummary`. -/
structure IncomeTypeSummary where
  income_type : String
  budget : Rat
  total : Rat
  deriving DecidableEq, Repr

/-- `models/summary.rs`: `PeriodSummary`. -/
structure PeriodSummary where
  period : String
  color : String
  total_income : Rat
  total_expenses : Rat
  difference : Rat
  deriving DecidableEq, Repr

/-- `models/summary.rs`: `PeriodSummaryResponse`. -/
structure PeriodSummaryResponse where
  periods : List PeriodSummary
  grand_total_income : Rat
  grand_total_expenses : Rat
  grand_total_difference : Rat
  deriving DecidableEq, Repr

/-- `models/auth.rs`: `User`. -/
structure User where
  id : Int
  email : String
  full_name : Option String
  is_active : Bool
  is_admin : Bool
  deriving DecidableEq, Repr

/-! ## Form drafts (`src/tui/src/state/forms.rs`) -/

/-- `forms.rs`: `ExpenseField` (cost is calculated, never focusable). -/
inductive ExpenseField where
  | Name
  | Period
  | Category
  | Budget
  | Purchases
  | Notes
  deriving DecidableEq, Repr

/-- `forms.rs`: `IncomeField`. -/
inductive IncomeField where
  | IncomeType
  | Period
  | Budget
  | Amount
  deriving DecidableEq, Repr

/-- `forms.rs`: `ExpenseFormState`. -/
structure ExpenseFormState where
  editing_id : Option Int
  name : String
  period : String
  category : String
  budget : String
  cost : String
  notes : String
  purchases : List Purchase
  focused_field : ExpenseField
  deriving DecidableEq, Repr

/-- `impl Default for ExpenseFormState`. -/
def ExpenseFormState.default : ExpenseFormState where
  editing_id := none
  name := ""
  period := ""
  category := ""
  budget := ""
  cost := "0"
  notes := ""
  purchases := []
  focused_field := .Name

/-- `ExpenseFormState::calculated_cost`: sum of purchase amounts. -/
def ExpenseFormState.calculated_cost (f : ExpenseFormState) : Rat :=
  (f.purchases.map Purchase.amount).sum

/-- `ExpenseFormState::to_create`. -/
def ExpenseFormState.to_create (f : ExpenseFormState) (month_id : Int) :
    Option ExpenseCreate := do
  let budget ← parse_f64 f.budget
  let cost := f.calculated_cost
  pure {
    expense_name := f.name
    period := f.period
    category := f.category
    budget := budget
    cost := cost
    notes := if f.notes.isEmpty then none else some f.notes
    month_id := month_id
    purchases := if f.purchases.isEmpty then none else some f.purchases
    expense_date := none }

/-- `ExpenseFormState::to_update`: every form-captured field is wrapped in
`Some`; `month_id` and `expense_date` stay at their `Default` (`None`). -/
def ExpenseFormState.to_update (f : ExpenseFormState) : Option ExpenseUpdate := do
  let budget ← parse_f64 f.budget
  let cost := f.calculated_cost
  pure {
    expense_name := some f.name
    period := some f.period
    category := some f.category
    budget := some budget
    cost := some cost
    notes := some f.notes
    purchases := some f.purchases }

/-- `ExpenseFormState::validate`. -/
def ExpenseFormState.validate (f : ExpenseFormState) : List String :=
  let errors := []
  let errors := if f.name.trim.isEmpty then errors ++ ["Name is required"] else errors
  let errors := if f.period.trim.isEmpty then errors ++ ["Period is required"] else errors
  let errors := if f.category.trim.isEmpty then errors ++ ["Category is required"] else errors
  let errors := if (parse_f64 f.budget).isNone then
    errors ++ ["Budget must be a valid number"] else errors
  let errors := if f.purchases.isEmpty then
    errors ++ ["At least one purchase is required"]
  else if f.calculated_cost = 0 then
    errors ++ ["Purchases must have amounts"]
  else errors
  errors

/-- `forms.rs`: `IncomeFormState`. -/
structure IncomeFormState where
  editing_id : Option Int
  income_type_id : Option Int
  period : String
  budget : String
  amount : String
  focused_field : IncomeField
  deriving DecidableEq, Repr

/-- `impl Default for IncomeFormState`. -/
def IncomeFormState.default : IncomeFormState where
  editing_id := none
  income_type_id := none
  period := ""
  budget := ""
  amount := "0"
  focused_field := .IncomeType

/-- `IncomeFormState::to_create`. -/
def IncomeFormState.to_create (f : IncomeFormState) (month_id : Int) :
    Option IncomeCreate := do
  let income_type_id ← f.income_type_id
  let budget ← parse_f64 f.budget
  let amount ← parse_f64 f.amount
  pure {
    income_type_id := income_type_id
    period := f.period
    budget := budget
    amount := amount
    month_id := month_id }

/-- `IncomeFormState::to_update`. -/
def IncomeFormState.to_update (f : IncomeFormState) : Option IncomeUpdate := do
  let budget ← parse_f64 f.budget
  let amount ← parse_f64 f.amount
  pure {
    income_type_id := f.income_type_id
    period := some f.period
    budget := some budget
    amount := some amount }

/-- `IncomeFormState::validate`. -/
def IncomeFormState.validate (f : IncomeFormState) : List String :=
  let errors := []
  let errors := if f.income_type_id.isNone then
    errors ++ ["Income type is required"] else errors
  let errors := if f.period.trim.isEmpty then
    errors ++ ["Period is required"] else errors
  let errors := if (parse_f64 f.budget).isNone then
    errors ++ ["Budget must be a valid number"] else errors
  let errors := if (parse_f64 f.amount).isNone then
    errors ++ ["Amount must be a valid number"] else errors
  errors

/-- `forms.rs`: `CategoryFormState` (the same record shape also serves
`PeriodFormState` and `IncomeTypeFormState` in the source; they are kept as
distinct types below to preserve the source's structure). -/
structure CategoryFormState where
  editing_id : Option Int := none
  name : String := ""
  color : String := ""
  deriving DecidableEq, Repr

/-- `forms.rs`: `PeriodFormState`. -/
structure PeriodFormState where
  editing_id : Option Int := none
  name : String := ""
  color : String := ""
  deriving DecidableEq, Repr

/-- `forms.rs`: `IncomeTypeFormState`. -/
structure IncomeTypeFormState where
  editing_id : Option Int := none
  name : String := ""
  color : String := ""
  deriving DecidableEq, Repr

/-- `forms.rs`: `PasswordFormState`. -/
structure PasswordFormState where
  current_password : String := ""
  new_password : String := ""
  confirm_password : String := ""
  focused_field : Nat := 0
  deriving DecidableEq, Repr

/-! ## Application state (`src/tui/src/state/app_state.rs`)

The `Modal` enum below is the one `app.rs` matches on: the checked-in
`app_state.rs` is the superseded variant of the module (it lacks
`ConfirmCloseMonth` and the `amount_input` editing buffer that
`handle_modal_key` / `open_pay_confirmation` / `confirm_close_month` in
`app.rs` use); the two extra payloads are taken verbatim from those
construction sites. -/

/-- `app_state.rs`: `Screen`. -/
inductive Screen where
  | Login
  | ApiConfig
  | Dashboard
  deriving DecidableEq, Repr

/-- `app_state.rs`: `InputMode`. -/
inductive InputMode where
  | Normal
  | Editing
  deriving DecidableEq, Repr

/-- `app_state.rs`: `EntityType`. -/
inductive EntityType where
  | Expense
  | Income
  | Category
  | Period
  | IncomeType
  deriving DecidableEq, Repr

/-- `app_state.rs` / `app.rs`: `Modal`. -/
inductive Modal where
  | ExpenseForm (editing : Option Expense)
  | IncomeForm (editing : Option Income)
  | CategoryForm (editing : Option Category)
  | PeriodForm (editing : Option Period)
  | IncomeTypeForm (editing : Option IncomeType)
  | PasswordForm
  | ConfirmDelete (message : String) (id : Int) (entity_type : EntityType)
  | ConfirmPay (expense_name : String) (expense_id : Int) (amount : Rat)
      (amount_input : String)
  | ConfirmCloseMonth (month_name : String) (month_id : Int) (is_closing : Bool)
  | Help
  deriving DecidableEq, Repr

/-- `app_state.rs`: `DataState` — the resource caches. -/
structure DataState where
  expenses : List Expense := []
  incomes : List Income := []
  categories : List Category := []
  periods : List Period := []
  income_types : List IncomeType := []
  months : List Month := []
  current_month : Option Month := none
  summary_totals : Option SummaryTotals := none
  category_summary : List CategorySummary := []
  income_type_summary : List IncomeTypeSummary := []
  period_summary : Option PeriodSummaryResponse := none
  deriving DecidableEq, Repr

/-- `app_state.rs`: `UIState`.  A ratatui `TableState` carries only the
selected row index (`TableState::selected : Option<usize>`) as far as the
application logic is concerned, so it is modelled as `Option Nat`. -/
structure UIState where
  selected_month_index : Nat := 0
  selected_tab : DashboardTab := .Summary
  settings_tab : SettingsTab := .Categories
  period_filter : Option String := none
  category_filter : Option String := none
  expense_table : Option Nat := none
  income_table : Option Nat := none
  category_table : Option Nat := none
  period_table : Option Nat := none
  income_type_table : Option Nat := none
  category_summary_table : Option Nat := none
  modal : Option Modal := none
  input_mode : InputMode := .Normal
  is_loading : Bool := false
  error_message : Option String := none
  success_message : Option String := none
  deriving DecidableEq, Repr

/-- `app_state.rs`: `AppState`. -/
structure AppState where
  screen : Screen := .Login
  user : Option User := none
  data : DataState := {}
  ui : UIState := {}
  deriving DecidableEq, Repr

/-- `impl Default for AppState` (via the field defaults above, which mirror
`Default for UIState` / `derive(Default) for DataState`). -/
def AppState.default_state : AppState := {}

/-- `AppState::selected_month`. -/
def AppState.selected_month (s : AppState) : Option Month :=
  s.data.months.get? s.ui.selected_month_index

/-- `AppState::selected_month_id`. -/
def AppState.selected_month_id (s : AppState) : Option Int :=
  s.selected_month.map Month.id

/-- `AppState::next_month`: advance the selected month index, clamped to the
last month. -/
def AppState.next_month (s : AppState) : AppState :=
  if !s.data.months.isEmpty &&
      s.ui.selected_month_index < s.data.months.length - 1 then
    { s with ui := { s.ui with
        selected_month_index := s.ui.selected_month_index + 1 } }
  else s

/-- `AppState::previous_month`: retreat the selected month index, clamped
at 0. -/
def AppState.previous_month (s : AppState) : AppState :=
  if s.ui.selected_month_index > 0 then
    { s with ui := { s.ui with
        selected_month_index := s.ui.selected_month_index - 1 } }
  else s

/-- `AppState::filtered_expenses`: the derived expense view under the
current period/category filters (`Option::is_none_or` on each filter). -/
def AppState.filtered_expenses (s : AppState) : List Expense :=
  s.data.expenses.filter fun e =>
    (match s.ui.period_filter with
      | none => true
      | some p => e.period == p) &&
    (match s.ui.category_filter with
      | none => true
      | some c => e.category == c)

/-- `AppState::filtered_incomes`: the derived income view under the current
period filter. -/
def AppState.filtered_incomes (s : AppState) : List Income :=
  s.data.incomes.filter fun i =>
    match s.ui.period_filter with
    | none => true
    | some p => i.period == p

/-- `AppState::clear_messages`. -/
def AppState.clear_messages (s : AppState) : AppState :=
  { s with ui := { s.ui with error_message := none, success_message := none } }

/-- `AppState::set_error`: sets the error message and clears the success
message. -/
def AppState.set_error (s : AppState) (message : String) : AppState :=
  { s with ui := { s.ui with
      error_message := some message, success_message := none } }

/-- `AppState::set_success`: sets the success message and clears the error
message. -/
def AppState.set_success (s : AppState) (message : String) : AppState :=
  { s with ui := { s.ui with
      success_message := some message, error_message := none } }

/-- Field-assignment helper for `self.state.ui.modal = m`. -/
def AppState.set_modal (s : AppState) (m : Option Modal) : AppState :=
  { s with ui := { s.ui with modal := m } }

/-- Field-assignment helper for `self.state.ui.is_loading = b`. -/
def AppState.set_loading (s : AppState) (b : Bool) : AppState :=
  { s with ui := { s.ui with is_loading := b } }

/-! ## The application aggregate (`src/tui/src/app.rs`, `struct App`)

Only the fields the dispatch logic reads or writes are carried; the
terminal handle, HTTP client, config-file and login/api-config text buffers
are I/O plumbing outside the verified operations. -/

structure App where
  state : AppState := {}
  expense_form : ExpenseFormState := ExpenseFormState.default
  income_form : IncomeFormState := IncomeFormState.default
  category_form : CategoryFormState := {}
  period_form : PeriodFormState := {}
  income_type_form : IncomeTypeFormState := {}
  password_form : PasswordFormState := {}
  deriving DecidableEq, Repr

/-! ## Reified network responses

`app.rs` awaits each API call inline; in the embedding the response each
call *would* produce is passed in as an `Except String α` (`Ok` ↦ `.ok`,
`Err(e)` with display text `e` ↦ `.error e`), making each handler a pure
function of its pre-state and the responses. -/

/-- The six fetches `App::load_month_data` performs, in program order. -/
structure MonthDataFetches where
  expenses : Except String (List Expense)
  incomes : Except String (List Income)
  totals : Except String SummaryTotals
  category_summary : Except String (List CategorySummary)
  income_type_summary : Except String (List IncomeTypeSummary)
  period_summary : Except String PeriodSummaryResponse

/-- The fetches `App::load_tab_data` may perform (which subset runs depends
on the selected tab). -/
structure TabDataFetches where
  month : MonthDataFetches
  expenses : Except String (List Expense)
  incomes : Except String (List Income)
  categories : Except String (List Category)
  periods : Except String (List Period)
  income_types : Except String (List IncomeType)

/-- `App::is_month_closed`: the selected month's closed flag, `false` when
no month is selected. -/
def App.is_month_closed (a : App) : Bool :=
  (a.state.selected_month.map Month.is_closed).getD false

/-- `App::load_month_data` (`app.rs:1815`): six independent
`if let Ok(v) = fetch { cache = v }` steps — each cache is either replaced
wholesale by its response or, on error, left untouched. -/
def App.load_month_data (a : App) (f : MonthDataFetches) : App :=
  let d := a.state.data
  let d := match f.expenses with
    | .ok v => { d with expenses := v }
    | .error _ => d
  let d := match f.incomes with
    | .ok v => { d with incomes := v }
    | .error _ => d
  let d := match f.totals with
    | .ok v => { d with summary_totals := some v }
    | .error _ => d
  let d := match f.category_summary with
    | .ok v => { d with category_summary := v }
    | .error _ => d
  let d := match f.income_type_summary with
    | .ok v => { d with income_type_summary := v }
    | .error _ => d
  let d := match f.period_summary with
    | .ok v => { d with period_summary := some v }
    | .error _ => d
  { a with state := { a.state with data := d } }

/-- `App::load_tab_data` (`app.rs:1858`): per-tab reload — Summary/Charts
reload the month data, Expenses/Income re-fetch their own cache with the
current filters, Settings re-fetches categories, periods and income
types. -/
def App.load_tab_data (a : App) (f : TabDataFetches) : App :=
  match a.state.ui.selected_tab with
  | .Summary => a.load_month_data f.month
  | .Expenses =>
    match f.expenses with
    | .ok v => { a with state :=
        { a.state with data := { a.state.data with expenses := v } } }
    | .error _ => a
  | .Income =>
    match f.incomes with
    | .ok v => { a with state :=
        { a.state with data := { a.state.data with incomes := v } } }
    | .error _ => a
  | .Charts => a.load_month_data f.month
  | .Settings =>
    let d := a.state.data
    let d := match f.categories with
      | .ok v => { d with categories := v }
      | .error _ => d
    let d := match f.periods with
      | .ok v => { d with periods := v }
      | .error _ => d
    let d := match f.income_types with
      | .ok v => { d with income_types := v }
      | .error _ => d
    { a with state := { a.state with data := d } }

/-- The three fetches `App::load_settings_data` performs, in program
order. -/
structure SettingsDataFetches where
  categories : Except String (List Category)
  periods : Except String (List Period)
  income_types : Except String (List IncomeType)

/-- `App::load_settings_data` (`app.rs:1282`, called from `save_entity`):
three independent `if let Ok(v) = fetch { cache = v }` steps over the
categories, periods and income-types caches, run regardless of the selected
tab. -/
def App.load_settings_data (a : App) (f : SettingsDataFetches) : App :=
  let d := a.state.data
  let d := match f.categories with
    | .ok v => { d with categories := v }
    | .error _ => d
  let d := match f.periods with
    | .ok v => { d with periods := v }
    | .error _ => d
  let d := match f.income_types with
    | .ok v => { d with income_types := v }
    | .error _ => d
  { a with state := { a.state with data := d } }

/-- `App::open_new_item_modal` (`app.rs:1410`): closed-month guard for the
Expenses/Income tabs, then a fresh pre-seeded draft and the create-mode
modal for the active tab. -/
def App.open_new_item_modal (a : App) : App :=
  if (a.state.ui.selected_tab == .Expenses ||
      a.state.ui.selected_tab == .Income) && a.is_month_closed then
    { a with state := (a.state.set_error
        "Cannot add items to a closed month. Reopen the month first.") }
  else
    match a.state.ui.selected_tab with
    | .Expenses =>
      let form := ExpenseFormState.default
      let form := match a.state.data.periods.head? with
        | some p => { form with period := p.name }
        | none => form
      let form := match a.state.data.categories.head? with
        | some c => { form with category := c.name }
        | none => form
      { a with
          expense_form := form
          state := a.state.set_modal (some (.ExpenseForm none)) }
    | .Income =>
      let form := IncomeFormState.default
      let form := match a.state.data.periods.head? with
        | some p => { form with period := p.name }
        | none => form
      let form := match a.state.data.income_types.head? with
        | some it => { form with income_type_id := some it.id }
        | none => form
      { a with
          income_form := form
          state := a.state.set_modal (some (.IncomeForm none)) }
    | .Settings =>
      match a.state.ui.settings_tab with
      | .Categories =>
        { a with
          category_form := {}
          state := a.state.set_modal (some (.CategoryForm none)) }
      | .Periods =>
        { a with
          period_form := {}
          state := a.state.set_modal (some (.PeriodForm none)) }
      | .IncomeTypes =>
        { a with
          income_type_form := {}
          state := a.state.set_modal (some (.IncomeTypeForm none)) }
      | .Password =>
        { a with
          password_form := {}
          state := a.state.set_modal (some .PasswordForm) }
    | _ => a

/-- `ExpenseFormState::from_expense`. -/
def ExpenseFormState.from_expense (e : Expense) : ExpenseFormState where
  editing_id := some e.id
  name := e.expense_name
  period := e.period
  category := e.category
  budget := toString e.budget
  cost := toString e.cost
  notes := e.notes.getD ""
  purchases := e.purchases.getD []
  focused_field := .Name

/-- `IncomeFormState::from_income`. -/
def IncomeFormState.from_income (i : Income) : IncomeFormState where
  editing_id := some i.id
  income_type_id := some i.income_type_id
  period := i.period
  budget := toString i.budget
  amount := toString i.amount
  focused_field := .IncomeType

/-- `App::open_edit_item_modal` (`app.rs:1470`): same closed-month guard,
then an update-mode modal pre-filled from the selected record. -/
def App.open_edit_item_modal (a : App) : App :=
  if (a.state.ui.selected_tab == .Expenses ||
      a.state.ui.selected_tab == .Income) && a.is_month_closed then
    { a with state := (a.state.set_error
        "Cannot edit items in a closed month. Reopen the month first.") }
  else
    match a.state.ui.selected_tab with
    | .Expenses =>
      match a.state.ui.expense_table with
      | some idx =>
        match a.state.filtered_expenses.get? idx with
        | some e =>
          { a with
          expense_form := ExpenseFormState.from_expense e
          state := a.state.set_modal (some (.ExpenseForm (some e))) }
        | none => a
      | none => a
    | .Income =>
      match a.state.ui.income_table with
      | some idx =>
        match a.state.filtered_incomes.get? idx with
        | some i =>
          { a with
          income_form := IncomeFormState.from_income i
          state := a.state.set_modal (some (.IncomeForm (some i))) }
        | none => a
      | none => a
    | .Settings =>
      match a.state.ui.settings_tab with
      | .Categories =>
        match a.state.ui.category_table with
        | some idx =>
          match a.state.data.categories.get? idx with
          | some c =>
            { a with
          category_form :=
            { editing_id := some c.id, name := c.name, color := c.color }
          state := a.state.set_modal (some (.CategoryForm (some c))) }
          | none => a
        | none => a
      | .Periods =>
        match a.state.ui.period_table with
        | some idx =>
          match a.state.data.periods.get? idx with
          | some p =>
            { a with
          period_form :=
            { editing_id := some p.id, name := p.name, color := p.color }
          state := a.state.set_modal (some (.PeriodForm (some p))) }
          | none => a
        | none => a
      | .IncomeTypes =>
        match a.state.ui.income_type_table with
        | some idx =>
          match a.state.data.income_types.get? idx with
          | some it =>
            { a with
          income_type_form :=
            { editing_id := some it.id, name := it.name, color := it.color }
          state := a.state.set_modal (some (.IncomeTypeForm (some it))) }
          | none => a
        | none => a
      | .Password =>
        { a with
          password_form := {}
          state := a.state.set_modal (some .PasswordForm) }
    | _ => a

/-- `App::open_delete_confirmation` (`app.rs:1548`): same closed-month
guard, then a `ConfirmDelete` modal naming the selected record. -/
def App.open_delete_confirmation (a : App) : App :=
  if (a.state.ui.selected_tab == .Expenses ||
      a.state.ui.selected_tab == .Income) && a.is_month_closed then
    { a with state := (a.state.set_error
        "Cannot delete items in a closed month. Reopen the month first.") }
  else
    match a.state.ui.selected_tab with
    | .Expenses =>
      match a.state.ui.expense_table with
      | some idx =>
        match a.state.filtered_expenses.get? idx with
        | some e =>
          { a with state := a.state.set_modal (some (.ConfirmDelete
              ("Delete expense '" ++ e.expense_name ++ "'?") e.id .Expense)) }
        | none => a
      | none => a
    | .Income =>
      match a.state.ui.income_table with
      | some idx =>
        match a.state.filtered_incomes.get? idx with
        | some i =>
          { a with state := a.state.set_modal (some (.ConfirmDelete
              "Delete this income entry?" i.id .Income)) }
        | none => a
      | none => a
    | .Settings =>
      match a.state.ui.settings_tab with
      | .Categories =>
        match a.state.ui.category_table with
        | some idx =>
          match a.state.data.categories.get? idx with
          | some c =>
            { a with state := a.state.set_modal (some (.ConfirmDelete
                ("Delete category '" ++ c.name ++ "'?") c.id .Category)) }
          | none => a
        | none => a
      | .Periods =>
        match a.state.ui.period_table with
        | some idx =>
          match a.state.data.periods.get? idx with
          | some p =>
            { a with state := a.state.set_modal (some (.ConfirmDelete
                ("Delete period '" ++ p.name ++ "'?") p.id .Period)) }
          | none => a
        | none => a
      | .IncomeTypes =>
        match a.state.ui.income_type_table with
        | some idx =>
          match a.state.data.income_types.get? idx with
          | some it =>
            { a with state := a.state.set_modal (some (.ConfirmDelete
                ("Delete income type '" ++ it.name ++ "'?") it.id .IncomeType)) }
          | none => a
        | none => a
      | .Password => a
    | _ => a

/-- The single API call `App::save_expense` would issue, reified
(`expenses().create(..)` / `expenses().update(id, ..)`). -/
inductive ExpenseRequest where
  | create (payload : ExpenseCreate)
  | update (id : Int) (payload : ExpenseUpdate)
  deriving DecidableEq, Repr

/-- The single API call `App::save_income` would issue, reified
(`incomes().create(..)` / `incomes().update(id, ..)`). -/
inductive IncomeRequest where
  | create (payload : IncomeCreate)
  | update (id : Int) (payload : IncomeUpdate)
  deriving DecidableEq, Repr

/-- `App::save_expense` (`app.rs:943`): validates via
`ExpenseFormState::validate`, requires a selected month, converts the draft
(`to_update` when `editing_id` is set, `to_create` otherwise; both `None`
branches set "Invalid expense data"), then — before inspecting the call's
result — clears the loading flag, closes the modal and resets the draft,
and finally folds the result into a success or error message (reloading the
tab's data on success).  Returns the post-state together with the request
issued, `none` when validation or conversion short-circuited before the
network. -/
def App.save_expense (a : App) (r : Except String Unit) (f : TabDataFetches) :
    App × Option ExpenseRequest :=
  let errors := a.expense_form.validate
  if !errors.isEmpty then
    ({ a with state := a.state.set_error (String.intercalate ", " errors) }, none)
  else
    match a.state.selected_month_id with
    | none => ({ a with state := a.state.set_error "No month selected" }, none)
    | some month_id =>
      let a := { a with state := a.state.set_loading true }
      let request : Option ExpenseRequest :=
        match a.expense_form.editing_id with
        | some id => (a.expense_form.to_update).map (ExpenseRequest.update id)
        | none => (a.expense_form.to_create month_id).map ExpenseRequest.create
      match request with
      | none =>
        ({ a with state :=
            (a.state.set_loading false).set_error "Invalid expense data" }, none)
      | some req =>
        let was_editing := a.expense_form.editing_id.isSome
        let a := { a with
          expense_form := ExpenseFormState.default
          state := (a.state.set_loading false).set_modal none }
        match r with
        | .ok _ =>
          let action := if was_editing then "updated" else "created"
          let a := { a with state :=
              a.state.set_success ("Expense " ++ action ++ " successfully") }
          (a.load_tab_data f, some req)
        | .error e =>
          ({ a with state :=
              a.state.set_error ("Failed to save expense: " ++ e) }, some req)

/-- `App::save_income` (`app.rs:1004`): inline validation covers only the
income type (`is_none`) and the period (`is_empty`); the budget and amount
strings are parsed with `parse().unwrap_or(0.0)` — an unparsable string is
silently replaced by `0` and submission proceeds
(`IncomeFormState::validate` is never called here).  Before inspecting the
call's result the modal is closed (the income draft itself is not reset);
the result then folds into a success or error message. -/
def App.save_income (a : App) (r : Except String Unit) (f : TabDataFetches) :
    App × Option IncomeRequest :=
  match a.income_form.income_type_id with
  | none => ({ a with state := a.state.set_error "Income type is required" }, none)
  | some income_type_id =>
    if a.income_form.period.isEmpty then
      ({ a with state := a.state.set_error "Period is required" }, none)
    else
      let budget := (parse_f64 a.income_form.budget).getD 0
      let amount := (parse_f64 a.income_form.amount).getD 0
      match a.state.selected_month_id with
      | none => ({ a with state := a.state.set_error "No month selected" }, none)
      | some month_id =>
        let a := { a with state := a.state.set_loading true }
        let req : IncomeRequest :=
          match a.income_form.editing_id with
          | some id =>
            IncomeRequest.update id
              { income_type_id := a.income_form.income_type_id
                period := some a.income_form.period
                budget := some budget
                amount := some amount }
          | none =>
            IncomeRequest.create
              { income_type_id := income_type_id
                period := a.income_form.period
                budget := budget
                amount := amount
                month_id := month_id }
        let a := { a with state := (a.state.set_loading false).set_modal none }
        match r with
        | .ok _ =>
          let action := if a.income_form.editing_id.isSome then "updated" else "created"
          let a := { a with state :=
              a.state.set_success ("Income " ++ action ++ " successfully") }
          (a.load_tab_data f, some req)
        | .error e =>
          ({ a with state :=
              a.state.set_error ("Failed to save income: " ++ e) }, some req)

/-- `App::handle_modal_key` (`app.rs:496`) specialized to the state in which
`Modal::Help` is active.  With `Help` active every form-modal early return
and the `ConfirmPay` `if let` fall through (their guards match other modal
variants), so the run is exactly the final `match key.code` at
`app.rs:561-585`: the `Esc` arm closes the modal; the `Char('y')` arm only
invokes `confirm_delete` / `confirm_close_month` when `ConfirmDelete` /
`ConfirmCloseMonth` is active, so with `Help` it does nothing; the
`Char('n')` arm only closes those two confirm modals, so with `Help` it also
does nothing; every other key reaches the catch-all arm, which closes the
`Help` modal. -/
def App.handle_modal_key_help (a : App) (key : KeyCode) : App :=
  match key with
  | .esc => { a with state := a.state.set_modal none }
  | .char c =>
    if c = 'y' then a
    else if c = 'n' then a
    else { a with state := a.state.set_modal none }
  | _ => { a with state := a.state.set_modal none }

/-! ## The message discipline

`grep` over `src/tui/src` shows every write to `ui.error_message` /
`ui.success_message` outside `UIState::default` goes through exactly one of
`AppState::set_error`, `AppState::set_success`, `AppState::clear_messages`
(the rendering layer in `ui/` only reads them).  A `MessageOp` is one such
call; an arbitrary interleaving of them covers every reachable message
state. -/

inductive MessageOp where
  | err (message : String)
  | succ (message : String)
  | clear
  deriving DecidableEq, Repr

/-- Run one message-mutating call. -/
def apply_message_op (s : AppState) : MessageOp → AppState
  | .err m => s.set_error m
  | .succ m => s.set_success m
  | .clear => s.clear_messages

/-- At most one of the two transient messages is present. -/
def messages_exclusive (s : AppState) : Prop :=
  s.ui.error_message = none ∨ s.ui.success_message = none

instance (s : AppState) : Decidable (messages_exclusive s) := by
  unfold messages_exclusive; infer_instance

/-! ## Concrete sample data for witnesses and counterexamples -/

/-- A sample open month (shape as in `tests/state_test.rs`). -/
def sample_month : Month where
  id := 9
  year := 2024
  month := 2
  name := "February 2024"
  start_date := "2024-02-01"
  end_date := "2024-02-29"
  is_closed := false
  closed_at := none
  closed_by := none

/-- The same month with its closed flag set. -/
def sample_month_closed : Month :=
  { sample_month with is_closed := true, closed_at := some "2024-03-01" }

/-- A sample purchase line. -/
def sample_purchase : Purchase where
  name := "weekly shop"
  amount := 50
  date := none

/-- A sample expense (shape as in `tests/state_test.rs`). -/
def sample_expense : Expense where
  id := 1
  expense_name := "Groceries"
  period := "Monthly"
  category := "Food"
  budget := 500
  cost := 450
  notes := none
  month_id := 9
  purchases := none
  order := 0
  expense_date := none

/-- A sample income (shape as in `tests/state_test.rs`). -/
def sample_income : Income where
  id := 1
  income_type_id := 4
  period := "Monthly"
  budget := 5000
  amount := 4800
  month_id := 9
  created_at := "2024-02-01"
  updated_at := "2024-02-01"
  created_by := none
  updated_by := none

/-- A bundle of successful month-data responses. -/
def sample_month_fetches : MonthDataFetches where
  expenses := .ok [sample_expense]
  incomes := .ok [sample_income]
  totals := .error "offline"
  category_summary := .error "offline"
  income_type_summary := .error "offline"
  period_summary := .error "offline"

/-- A bundle of tab-data responses in which every fetch fails. -/
def failing_tab_fetches : TabDataFetches where
  month :=
    { expenses := .error "offline"
      incomes := .error "offline"
      totals := .error "offline"
      category_summary := .error "offline"
      income_type_summary := .error "offline"
      period_summary := .error "offline" }
  expenses := .error "offline"
  incomes := .error "offline"
  categories := .error "offline"
  periods := .error "offline"
  income_types := .error "offline"

/-- A sample category. -/
def sample_category : Category where
  id := 3
  name := "Food"
  color := "#c05020"

/-- A bundle of settings responses: the categories fetch succeeds, the
periods and income-types fetches fail. -/
def sample_settings_fetches : SettingsDataFetches where
  categories := .ok [sample_category]
  periods := .error "offline"
  income_types := .error "offline"

/-- A concrete dashboard on the Expenses tab whose only month is closed,
with no modal active. -/
def closed_month_app : App where
  state :=
    { data := { months := [sample_month_closed] }
      ui := { selected_tab := .Expenses } }

/-- A concrete dashboard on the Expenses tab with an empty months cache. -/
def no_month_app : App where
  state := { ui := { selected_tab := .Expenses } }

/-- A valid expense draft about to be submitted in create mode. -/
def pending_expense_form : ExpenseFormState where
  editing_id := none
  name := "Rent"
  period := "Monthly"
  category := "Housing"
  budget := "100"
  cost := "0"
  notes := ""
  purchases := [sample_purchase]
  focused_field := .Name

/-- The dashboard state in which that draft's form modal is open. -/
def pending_expense_app : App where
  state :=
    { data := { months := [sample_month] }
      ui := { selected_tab := .Expenses, modal := some (.ExpenseForm none) } }
  expense_form := pending_expense_form

/-- The failing input for C2: an income draft whose budget string does not
parse as a number (its own `IncomeFormState::validate` rejects it). -/
def bad_budget_income_form : IncomeFormState where
  editing_id := none
  income_type_id := some 4
  period := "Monthly"
  budget := "abc"
  amount := "50"
  focused_field := .IncomeType

/-- The dashboard state submitting that draft. -/
def bad_budget_income_app : App where
  state :=
    { data := { months := [sample_month] }
      ui := { selected_tab := .Income, modal := some (.IncomeForm none) } }
  income_form := bad_budget_income_form

/-- An update draft in which only the budget field is populated (every
other capturable field is at its empty default). -/
def budget_only_draft : ExpenseFormState :=
  { ExpenseFormState.default with editing_id := some 1, budget := "5" }

/-- A dashboard with the Help modal active. -/
def help_modal_app : App where
  state := { ui := { modal := some Modal.Help } }

end Budget

namespace Budget

/-- C8: tab cycling is a total cyclic order — for every dashboard tab `T`,
`next (previous T) = T` and five applications of `next` return to `T`; for
every settings sub-tab `S`, `next (previous S) = S` and four applications of
`next` return to `S`. -/
theorem tab_cycling_total_cyclic_order :
    (∀ t : DashboardTab, t.previous.next = t ∧ t.next.next.next.next.next = t) ∧
    (∀ s : SettingsTab, s.previous.next = s ∧ s.next.next.next.next = s) := by
  decide

/-- C9: in every reachable state at most one of the error and success
messages is present — the default state has neither, and any sequence of the
message-mutating operations (`set_error`, `set_success`, `clear_messages`,
the only writers of the two fields in the source) preserves the exclusivity:
`set_error` clears the success message and `set_success` clears the error
message. -/
theorem message_exclusivity_invariant :
    messages_exclusive AppState.default_state ∧
    (∀ (s : AppState) (m : String), (s.set_error m).ui.success_message = none) ∧
    (∀ (s : AppState) (m : String), (s.set_success m).ui.error_message = none) ∧
    ∀ (s : AppState) (ops : List MessageOp), messages_exclusive s →
      messages_exclusive (ops.foldl apply_message_op s) := by
  refine ⟨Or.inl rfl, fun _ _ => rfl, fun _ _ => rfl, fun s ops => ?_⟩
  induction ops generalizing s with
  | nil => exact fun h => h
  | cons op rest ih =>
    intro _h
    refine ih _ ?_
    cases op with
    | err m => exact Or.inr rfl
    | succ m => exact Or.inl rfl
    | clear => exact Or.inl rfl

/-- Witness for C9: a concrete operation sequence run from the default
state keeps the two messages mutually exclusive. -/
theorem message_exclusivity_invariant_witness :
    messages_exclusive
      ([MessageOp.err "boom", MessageOp.succ "saved", MessageOp.err "again"].foldl
        apply_message_op AppState.default_state) :=
  message_exclusivity_invariant.2.2.2 AppState.default_state
    [MessageOp.err "boom", MessageOp.succ "saved", MessageOp.err "again"]
    (Or.inl rfl)

/-- C7: the filtered expense/income views are pure projections — each is a
sublist of its cache (the cache itself is never written by view
computation, which is a read-only function of the state), and with both
filters cleared (`none`) the view is exactly the unfiltered cache in its
original order. -/
theorem filtered_views_pure_and_identity :
    ∀ s : AppState,
      s.filtered_expenses.Sublist s.data.expenses ∧
      s.filtered_incomes.Sublist s.data.incomes ∧
      (s.ui.period_filter = none → s.ui.category_filter = none →
        s.filtered_expenses = s.data.expenses ∧
        s.filtered_incomes = s.data.incomes) := by
  intro s
  refine ⟨List.filter_sublist _, List.filter_sublist _, fun hp hc => ?_⟩
  unfold AppState.filtered_expenses AppState.filtered_incomes
  rw [hp, hc]
  exact ⟨List.filter_eq_self.mpr fun _ _ => rfl, List.filter_eq_self.mpr fun _ _ => rfl⟩

/-- Witness for C7: a state with one cached expense and income and no
filters; the cleared-filter view is the cache itself. -/
theorem filtered_views_pure_and_identity_witness :
    (({ data := { expenses := [sample_expense], incomes := [sample_income] } } :
        AppState).filtered_expenses = [sample_expense]) ∧
    (({ data := { expenses := [sample_expense], incomes := [sample_income] } } :
        AppState).filtered_incomes = [sample_income]) :=
  (filtered_views_pure_and_identity
    { data := { expenses := [sample_expense], incomes := [sample_income] } }).2.2
    rfl rfl

/-- C5: with the Expenses or Income tab selected and the selected month's
closed flag set, each of the new/edit/delete actions sets the corresponding
error message and leaves the modal field exactly as it was (in particular,
if no modal was active none opens). -/
theorem closed_month_guard_blocks_actions :
    ∀ a : App,
      (a.state.ui.selected_tab = DashboardTab.Expenses ∨
        a.state.ui.selected_tab = DashboardTab.Income) →
      a.is_month_closed = true →
      (a.open_new_item_modal.state.ui.modal = a.state.ui.modal ∧
        a.open_new_item_modal.state.ui.error_message =
          some "Cannot add items to a closed month. Reopen the month first.") ∧
      (a.open_edit_item_modal.state.ui.modal = a.state.ui.modal ∧
        a.open_edit_item_modal.state.ui.error_message =
          some "Cannot edit items in a closed month. Reopen the month first.") ∧
      (a.open_delete_confirmation.state.ui.modal = a.state.ui.modal ∧
        a.open_delete_confirmation.state.ui.error_message =
          some "Cannot delete items in a closed month. Reopen the month first.") := by
  intro a htab hclosed
  have hcond : ((a.state.ui.selected_tab == DashboardTab.Expenses ||
      a.state.ui.selected_tab == DashboardTab.Income) && a.is_month_closed) = true := by
    rcases htab with h | h <;> simp [h, hclosed]
  refine ⟨?_, ?_, ?_⟩ <;>
    simp [App.open_new_item_modal, App.open_edit_item_modal,
      App.open_delete_confirmation, hcond, AppState.set_error]

/-- Witness for C5: on `closed_month_app` the new action refuses with an
error and the modal stays `none`. -/
theorem closed_month_guard_blocks_actions_witness :
    closed_month_app.open_new_item_modal.state.ui.modal = none ∧
    closed_month_app.open_new_item_modal.state.ui.error_message =
      some "Cannot add items to a closed month. Reopen the month first." :=
  (closed_month_guard_blocks_actions closed_month_app (Or.inl rfl) (by decide)).1

/-- C10: when no month is selected (empty months cache or an out-of-range
selected index) `is_month_closed` is `false` — `selected_month` is `None`
and `unwrap_or(false)` applies — so the closed-month guard never blocks:
the new-item hotkey on the Expenses or Income tab opens the corresponding
form modal even though no month exists. -/
theorem no_selected_month_never_blocks_new_modal :
    ∀ a : App,
      (a.state.data.months = [] ∨
        a.state.data.months.length ≤ a.state.ui.selected_month_index) →
      a.is_month_closed = false ∧
      (a.state.ui.selected_tab = DashboardTab.Expenses →
        a.open_new_item_modal.state.ui.modal = some (Modal.ExpenseForm none)) ∧
      (a.state.ui.selected_tab = DashboardTab.Income →
        a.open_new_item_modal.state.ui.modal = some (Modal.IncomeForm none)) := by
  intro a h
  have hnone : a.state.data.months.get? a.state.ui.selected_month_index = none := by
    rcases h with h | h
    · simp [h]
    · exact List.get?_eq_none.mpr h
  have hclosed : a.is_month_closed = false := by
    unfold App.is_month_closed AppState.selected_month
    rw [hnone]
    rfl
  refine ⟨hclosed, fun htab => ?_, fun htab => ?_⟩ <;>
    simp [App.open_new_item_modal, htab, hclosed, AppState.set_modal]

/-- Witness for C10: on `no_month_app` (empty months cache, Expenses tab)
the closed-month check reports `false` and the new-item action opens the
expense form modal. -/
theorem no_selected_month_never_blocks_new_modal_witness :
    no_month_app.is_month_closed = false ∧
    no_month_app.open_new_item_modal.state.ui.modal = some (Modal.ExpenseForm none) :=
  ⟨(no_selected_month_never_blocks_new_modal no_month_app (Or.inl rfl)).1,
   (no_selected_month_never_blocks_new_modal no_month_app (Or.inl rfl)).2.1 rfl⟩

/-- C6: every reload replaces each cache wholesale on success and leaves it
exactly as it was on failure — for `load_month_data` this holds for each of
the six caches it touches (and it never touches the months, categories,
periods or income-types caches); for `load_tab_data` it holds for the
expense cache on the Expenses tab, the income cache on the Income tab, and
the three settings caches on the Settings tab; for `load_settings_data` it
holds unconditionally for the categories, periods and income-types caches
(and the expenses, incomes and months caches are never touched by it). -/
theorem cache_reloads_wholesale_or_untouched :
    ∀ (a : App) (f : MonthDataFetches) (g : TabDataFetches)
      (sd : SettingsDataFetches),
      ((∀ v, f.expenses = .ok v → (a.load_month_data f).state.data.expenses = v) ∧
       (∀ e, f.expenses = .error e →
         (a.load_month_data f).state.data.expenses = a.state.data.expenses) ∧
       (∀ v, f.incomes = .ok v → (a.load_month_data f).state.data.incomes = v) ∧
       (∀ e, f.incomes = .error e →
         (a.load_month_data f).state.data.incomes = a.state.data.incomes) ∧
       (∀ v, f.totals = .ok v →
         (a.load_month_data f).state.data.summary_totals = some v) ∧
       (∀ e, f.totals = .error e →
         (a.load_month_data f).state.data.summary_totals = a.state.data.summary_totals) ∧
       (∀ v, f.category_summary = .ok v →
         (a.load_month_data f).state.data.category_summary = v) ∧
       (∀ e, f.category_summary = .error e →
         (a.load_month_data f).state.data.category_summary = a.state.data.category_summary) ∧
       (∀ v, f.income_type_summary = .ok v →
         (a.load_month_data f).state.data.income_type_summary = v) ∧
       (∀ e, f.income_type_summary = .error e →
         (a.load_month_data f).state.data.income_type_summary =
           a.state.data.income_type_summary) ∧
       (∀ v, f.period_summary = .ok v →
         (a.load_month_data f).state.data.period_summary = some v) ∧
       (∀ e, f.period_summary = .error e →
         (a.load_month_data f).state.data.period_summary = a.state.data.period_summary)) ∧
      ((a.load_month_data f).state.data.months = a.state.data.months ∧
       (a.load_month_data f).state.data.categories = a.state.data.categories ∧
       (a.load_month_data f).state.data.periods = a.state.data.periods ∧
       (a.load_month_data f).state.data.income_types = a.state.data.income_types) ∧
      (a.state.ui.selected_tab = DashboardTab.Expenses →
        (∀ v, g.expenses = .ok v → (a.load_tab_data g).state.data.expenses = v) ∧
        (∀ e, g.expenses = .error e →
          (a.load_tab_data g).state.data = a.state.data)) ∧
      (a.state.ui.selected_tab = DashboardTab.Income →
        (∀ v, g.incomes = .ok v → (a.load_tab_data g).state.data.incomes = v) ∧
        (∀ e, g.incomes = .error e →
          (a.load_tab_data g).state.data = a.state.data)) ∧
      (a.state.ui.selected_tab = DashboardTab.Settings →
        (∀ v, g.categories = .ok v → (a.load_tab_data g).state.data.categories = v) ∧
        (∀ e, g.categories = .error e →
          (a.load_tab_data g).state.data.categories = a.state.data.categories) ∧
        (∀ v, g.periods = .ok v → (a.load_tab_data g).state.data.periods = v) ∧
        (∀ e, g.periods = .error e →
          (a.load_tab_data g).state.data.periods = a.state.data.periods) ∧
        (∀ v, g.income_types = .ok v →
          (a.load_tab_data g).state.data.income_types = v) ∧
        (∀ e, g.income_types = .error e →
          (a.load_tab_data g).state.data.income_types = a.state.data.income_types)) ∧
      ((∀ v, sd.categories = .ok v →
         (a.load_settings_data sd).state.data.categories = v) ∧
       (∀ e, sd.categories = .error e →
         (a.load_settings_data sd).state.data.categories = a.state.data.categories) ∧
       (∀ v, sd.periods = .ok v →
         (a.load_settings_data sd).state.data.periods = v) ∧
       (∀ e, sd.periods = .error e →
         (a.load_settings_data sd).state.data.periods = a.state.data.periods) ∧
       (∀ v, sd.income_types = .ok v →
         (a.load_settings_data sd).state.data.income_types = v) ∧
       (∀ e, sd.income_types = .error e →
         (a.load_settings_data sd).state.data.income_types = a.state.data.income_types) ∧
       (a.load_settings_data sd).state.data.expenses = a.state.data.expenses ∧
       (a.load_settings_data sd).state.data.incomes = a.state.data.incomes ∧
       (a.load_settings_data sd).state.data.months = a.state.data.months) := by
  intro a f g sd
  obtain ⟨fe, fi, ft, fc, fit, fp⟩ := f
  obtain ⟨gm, ge, gi, gc, gp, git⟩ := g
  obtain ⟨sc, sp, si⟩ := sd
  refine ⟨?_, ?_, fun htab => ?_, fun htab => ?_, fun htab => ?_, ?_⟩
  · cases fe <;> cases fi <;> cases ft <;> cases fc <;> cases fit <;> cases fp <;>
      simp [App.load_month_data]
  · cases fe <;> cases fi <;> cases ft <;> cases fc <;> cases fit <;> cases fp <;>
      simp [App.load_month_data]
  · cases ge <;> simp [App.load_tab_data, htab]
  · cases gi <;> simp [App.load_tab_data, htab]
  · cases gc <;> cases gp <;> cases git <;> simp [App.load_tab_data, htab]
  · cases sc <;> cases sp <;> cases si <;> simp [App.load_settings_data]

/-- Witness for C6: mixed bundles of responses — the month-data expense
fetch succeeds and replaces its cache while the failed totals fetch leaves
the summary cache untouched, and the settings-data categories fetch
succeeds and replaces its cache while the failed periods fetch leaves the
period cache untouched. -/
theorem cache_reloads_wholesale_or_untouched_witness :
    ((({} : App).load_month_data sample_month_fetches).state.data.expenses
        = [sample_expense]) ∧
    ((({} : App).load_month_data sample_month_fetches).state.data.summary_totals
        = none) ∧
    ((({} : App).load_settings_data sample_settings_fetches).state.data.categories
        = [sample_category]) ∧
    ((({} : App).load_settings_data sample_settings_fetches).state.data.periods
        = []) :=
  ⟨(cache_reloads_wholesale_or_untouched {} sample_month_fetches
      failing_tab_fetches sample_settings_fetches).1.1 [sample_expense] rfl,
   (cache_reloads_wholesale_or_untouched {} sample_month_fetches
      failing_tab_fetches sample_settings_fetches).1.2.2.2.2.2.1 "offline" rfl,
   (cache_reloads_wholesale_or_untouched {} sample_month_fetches
      failing_tab_fetches sample_settings_fetches).2.2.2.2.2.1 [sample_category] rfl,
   (cache_reloads_wholesale_or_untouched {} sample_month_fetches
      failing_tab_fetches sample_settings_fetches).2.2.2.2.2.2.2.2.1 "offline" rfl⟩

/-- From a passing expense validation, the budget string parses: if
`parse_f64` failed, `validate` would have pushed "Budget must be a valid
number" and the error list could not be empty. -/
theorem validate_nil_budget_parses (f : ExpenseFormState)
    (h : f.validate = []) : (parse_f64 f.budget).isSome := by
  by_contra hns
  rw [Option.not_isSome_iff_eq_none] at hns
  unfold ExpenseFormState.validate at h
  simp only [hns] at h
  split_ifs at h <;> simp_all

/-- Counterexample for C1 as stated: a valid expense draft whose API call
fails does NOT leave the form modal open with the draft intact — after
`save_expense` returns `Err`, the active modal is `none` (the claim requires
it to still be the expense form) and the draft has been reset. -/
theorem save_expense_error_closes_modal_counterexample :
    (pending_expense_app.save_expense (.error "network error")
        failing_tab_fetches).1.state.ui.modal = none ∧
    (pending_expense_app.save_expense (.error "network error")
        failing_tab_fetches).1.expense_form ≠ pending_expense_form := by
  with_unfolding_all decide

/-- C1 (amended): for every expense or income submission whose API call
returns `Err`, an error message is set, but the modal is closed rather than
remaining open — `save_expense` additionally resets the expense draft to its
defaults before inspecting the result, while `save_income` leaves the income
draft fields as submitted. -/
theorem save_error_sets_message_but_closes_modal :
    ∀ (a : App) (e : String) (f : TabDataFetches),
      (a.expense_form.validate = [] →
        a.state.selected_month_id.isSome →
        ((a.save_expense (.error e) f).1.state.ui.modal = none ∧
         (a.save_expense (.error e) f).1.state.ui.error_message =
           some ("Failed to save expense: " ++ e) ∧
         (a.save_expense (.error e) f).1.expense_form = ExpenseFormState.default)) ∧
      (a.income_form.income_type_id.isSome →
        a.income_form.period.isEmpty = false →
        a.state.selected_month_id.isSome →
        ((a.save_income (.error e) f).1.state.ui.modal = none ∧
         (a.save_income (.error e) f).1.state.ui.error_message =
           some ("Failed to save income: " ++ e) ∧
         (a.save_income (.error e) f).1.income_form = a.income_form)) := by
  intro a e f
  constructor
  · intro hv hm
    obtain ⟨mid, hmid⟩ := Option.isSome_iff_exists.mp hm
    obtain ⟨b, hb⟩ := Option.isSome_iff_exists.mp (validate_nil_budget_parses _ hv)
    cases hei : a.expense_form.editing_id with
    | none =>
      simp [App.save_expense, hv, hmid, hei, ExpenseFormState.to_create, hb,
        AppState.set_error, AppState.set_modal, AppState.set_loading]
    | some i =>
      simp [App.save_expense, hv, hmid, hei, ExpenseFormState.to_update, hb,
        AppState.set_error, AppState.set_modal, AppState.set_loading]
  · intro hty hpe hm
    obtain ⟨ity, hity⟩ := Option.isSome_iff_exists.mp hty
    obtain ⟨mid, hmid⟩ := Option.isSome_iff_exists.mp hm
    cases hei : a.income_form.editing_id with
    | none =>
      simp [App.save_income, hity, hpe, hmid, hei,
        AppState.set_error, AppState.set_modal, AppState.set_loading]
    | some i =>
      simp [App.save_income, hity, hpe, hmid, hei,
        AppState.set_error, AppState.set_modal, AppState.set_loading]

/-- Witness for C1 (amended): the concrete pending expense submission with
a failed call ends with the error message set and the modal closed. -/
theorem save_error_sets_message_but_closes_modal_witness :
    (pending_expense_app.save_expense (.error "timeout")
        failing_tab_fetches).1.state.ui.modal = none ∧
    (pending_expense_app.save_expense (.error "timeout")
        failing_tab_fetches).1.state.ui.error_message =
      some ("Failed to save expense: " ++ "timeout") :=
  ⟨((save_error_sets_message_but_closes_modal pending_expense_app "timeout"
      failing_tab_fetches).1 (by with_unfolding_all decide) (by decide)).1,
   ((save_error_sets_message_but_closes_modal pending_expense_app "timeout"
      failing_tab_fetches).1 (by with_unfolding_all decide) (by decide)).2.1⟩

/-- C2: evaluation at the failing input.  `save_income` never calls
`IncomeFormState::validate` (which rejects this draft); it substitutes `0`
for the unparsable budget via `parse().unwrap_or(0.0)` and issues the create
request anyway, reporting success — contradicting the validation-gates
policy the claim states. -/
theorem save_income_submits_unparsable_budget_as_zero :
    (bad_budget_income_app.save_income (.ok ()) failing_tab_fetches).2 =
      some (IncomeRequest.create
        { income_type_id := 4, period := "Monthly", budget := 0, amount := 50,
          month_id := 9 }) ∧
    bad_budget_income_form.validate = ["Budget must be a valid number"] ∧
    (bad_budget_income_app.save_income (.ok ()) failing_tab_fetches).1.state.ui.success_message =
      some ("Income " ++ "created" ++ " successfully") := by
  with_unfolding_all decide

/-- Counterexample for C3 as stated: converting a draft with only its
budget populated and serializing the payload yields a JSON object with all
seven captured keys — including `expense_name` and `period`, which are
unpopulated in the draft — not just `budget`. -/
theorem to_update_single_field_counterexample :
    budget_only_draft.to_update.map ExpenseUpdate.serialized_keys =
      some ["expense_name", "period", "category", "budget", "cost", "notes",
        "purchases"] ∧
    budget_only_draft.name = "" ∧ budget_only_draft.period = "" := by
  with_unfolding_all decide

/-- C3 (amended): for every expense update draft whose budget parses,
`to_update` produces a payload that serializes to a JSON object containing
exactly the seven form-captured fields — `expense_name`, `period`,
`category`, `budget`, `cost`, `notes`, `purchases` — regardless of which
are populated, and never `month_id` or `expense_date`. -/
theorem to_update_serializes_all_captured_fields :
    ∀ (d : ExpenseFormState) (u : ExpenseUpdate), d.to_update = some u →
      u.serialized_keys =
        ["expense_name", "period", "category", "budget", "cost", "notes",
          "purchases"] := by
  intro d u h
  unfold ExpenseFormState.to_update at h
  cases hb : parse_f64 d.budget with
  | none => rw [hb] at h; exact absurd h (by simp)
  | some b =>
    rw [hb] at h
    simp at h
    subst h
    rfl

/-- Witness for C3 (amended): the budget-only draft's payload has exactly
the seven captured keys. -/
theorem to_update_serializes_all_captured_fields_witness :
    ExpenseUpdate.serialized_keys
      { expense_name := some "", period := some "", category := some "",
        budget := some 5, cost := some 0, notes := some "",
        purchases := some [] } =
      ["expense_name", "period", "category", "budget", "cost", "notes",
        "purchases"] :=
  to_update_serializes_all_captured_fields budget_only_draft
    { expense_name := some "", period := some "", category := some "",
      budget := some 5, cost := some 0, notes := some "",
      purchases := some [] } (by with_unfolding_all decide)

/-- Counterexample for C4 as stated: with the Help modal active, the key
`'y'` does not close it — the `Char('y')` arm of `handle_modal_key` acts
only on the confirm modals, so the Help modal is still active afterwards. -/
theorem help_modal_y_key_counterexample :
    (help_modal_app.handle_modal_key_help (KeyCode.char 'y')).state.ui.modal =
      some Modal.Help ∧
    (help_modal_app.handle_modal_key_help (KeyCode.char 'y')).state.ui.modal ≠
      none := by
  decide

/-- C4 (amended): with the Help modal active, every key other than `'y'`
and `'n'` closes it; `'y'` and `'n'` leave the state (and thus the open
Help modal) unchanged. -/
theorem help_modal_any_key_except_yn_closes :
    ∀ (a : App) (key : KeyCode), a.state.ui.modal = some Modal.Help →
      ((key = KeyCode.char 'y' ∨ key = KeyCode.char 'n') →
        a.handle_modal_key_help key = a) ∧
      (key ≠ KeyCode.char 'y' → key ≠ KeyCode.char 'n' →
        (a.handle_modal_key_help key).state.ui.modal = none) := by
  intro a key _hm
  constructor
  · rintro (rfl | rfl) <;> simp [App.handle_modal_key_help]
  · intro hy hn
    cases key
    case char c =>
      have hcy : c ≠ 'y' := by rintro rfl; exact hy rfl
      have hcn : c ≠ 'n' := by rintro rfl; exact hn rfl
      simp [App.handle_modal_key_help, hcy, hcn, AppState.set_modal]
    all_goals simp [App.handle_modal_key_help, AppState.set_modal]

/-- Witness for C4 (amended): on the concrete Help-modal state, `Esc`
closes the modal and `'y'` leaves the state unchanged. -/
theorem help_modal_any_key_except_yn_closes_witness :
    (help_modal_app.handle_modal_key_help KeyCode.esc).state.ui.modal = none ∧
    help_modal_app.handle_modal_key_help (KeyCode.char 'y') = help_modal_app :=
  ⟨(help_modal_any_key_except_yn_closes help_modal_app KeyCode.esc rfl).2
      (by decide) (by decide),
   (help_modal_any_key_except_yn_closes help_modal_app (KeyCode.char 'y') rfl).1
      (Or.inl rfl)⟩

end Budget

